import Mathlib

/-
Verification development for mage-module-shard (src/index.ts).

Shallow embedding notes:
- JS values carried in MMRP envelope message arrays are modelled by `Msg`
  (a string, an Error object, or undefined); JS truthiness is `truthy`.
- A JS `Map` keyed by object references is modelled as an association list
  whose keys carry a `tag : Nat` standing for object identity; every
  `addPendingRequest` call allocates a fresh key object, modelled by the
  `nextTag` counter in the module state.
- A plain JS object used as a string-keyed dictionary is an association
  list on `String`, with assignment keeping insertion position
  (`setStr`) and `delete` removing the pair (`removeStr`).
- Thrown JS errors are `Except.error`; a TypeError raised by reading a
  property of an undefined field is an `Except.error` as well.  Fields the
  constructor never assigns are `Option` fields holding `none`.
- Timestamps (`Date.now()`) are passed in explicitly as `Int` values.
-/

/-- JS values carried in envelope message arrays: strings (or Buffers,
which only ever get `toString`ed), Error objects, and undefined. -/
inductive Msg where
  | str (s : String)
  | errVal (e : String)
  | undef
deriving DecidableEq, Repr

/-- JS truthiness of a `Msg`: the empty string and undefined are falsy. -/
def truthy : Msg → Bool
  | .str s => !s.isEmpty
  | .errVal _ => true
  | .undef => false

/-- JS `x.toString()`: throws a TypeError when `x` is undefined. -/
def msgToString : Msg → Except Msg String
  | .str s => .ok s
  | .errVal e => .ok ("Error: " ++ e)
  | .undef => .error (.errVal "TypeError: Cannot read property toString of undefined")

/-- An MMRP envelope: event name, message array, target route, and the
return route filled in by the transport on delivery. -/
structure Envelope where
  eventName : String
  messages : List Msg
  route : List String
  returnRoute : List String
deriving DecidableEq, Repr

/-- String-keyed dictionary lookup (JS object property read). -/
def lookupStr {α : Type} (m : List (String × α)) (k : String) : Option α :=
  (m.find? (fun p => p.1 == k)).map (fun p => p.2)

/-- String-keyed dictionary assignment: replaces in place when the key is
present (keeping insertion position), appends otherwise. -/
def setStr {α : Type} (m : List (String × α)) (k : String) (v : α) : List (String × α) :=
  if m.any (fun p => p.1 == k) then m.map (fun p => if p.1 == k then (k, v) else p)
  else m ++ [(k, v)]

/-- String-keyed dictionary `delete`. -/
def removeStr {α : Type} (m : List (String × α)) (k : String) : List (String × α) :=
  m.filter (fun p => p.1 != k)

/-- IShardedRequestMeta (src/index.ts lines 20-23), plus a `tag` standing
for the JS object identity that the `pendingRequests` Map keys on. -/
structure IShardedRequestMeta where
  tag : Nat
  id : String
  timestamp : Int
deriving DecidableEq, Repr

/-- `Map.get` on the object-keyed pendingRequests map: keys compare by
reference, i.e. by `tag`. -/
def mapGet {α : Type} (m : List (IShardedRequestMeta × α)) (k : IShardedRequestMeta) : Option α :=
  (m.find? (fun p => p.1.tag == k.tag)).map (fun p => p.2)

/-- `Map.set`: replaces in place when the key object is already present,
appends otherwise (fresh key objects always append). -/
def mapSet {α : Type} (m : List (IShardedRequestMeta × α)) (k : IShardedRequestMeta) (v : α) :
    List (IShardedRequestMeta × α) :=
  if m.any (fun p => p.1.tag == k.tag) then
    m.map (fun p => if p.1.tag == k.tag then (k, v) else p)
  else m ++ [(k, v)]

/-- `Map.delete` on the object-keyed map. -/
def mapDel {α : Type} (m : List (IShardedRequestMeta × α)) (k : IShardedRequestMeta) :
    List (IShardedRequestMeta × α) :=
  m.filter (fun p => p.1.tag != k.tag)

/-- ShardedRequest (src/index.ts lines 31-116): the data fields set by the
constructor, plus the identity `tag` of its registry key. -/
structure ShardedRequest where
  tag : Nat
  eventName : String
  target : List String
  method : String
  args : List Msg
deriving DecidableEq, Repr

/-- Request envelope built by `ShardedRequest.send` (line 103): the
messages are `[this.method, ...this.args]` - no correlation id. -/
def ShardedRequest.requestEnvelope (r : ShardedRequest) : Envelope :=
  ⟨r.eventName, .str r.method :: r.args, r.target, []⟩

/-- Outcome of `ShardedRequest.send` (lines 105-114) as observed by the
awaiting caller, as a function of the transport callback result. -/
inductive SendOutcome where
  | rejectedWith (e : Msg)
  | suspended
deriving DecidableEq, Repr

/-- `ShardedRequest.send` after building the envelope: when the transport
callback reports an error the promise is rejected with that very error
(lines 107-109) and the resolve and reject slots are never assigned;
otherwise the slots are assigned and the promise stays pending.  Note the
function has no access to any registry state: sending touches nothing
else. -/
def ShardedRequest.sendOutcome (_r : ShardedRequest) (transportError : Option String) :
    SendOutcome :=
  match transportError with
  | some e => .rejectedWith (.errVal e)
  | none => .suspended

/-- A sharded method body: takes the remaining messages, returns a value
or throws (src stores these in `shardedMethods`, line 225). -/
def MethodImpl : Type := List Msg → Except Msg Msg

/-- Resolution events observed by suspended callers: a pending request
(identified by its tag) is fulfilled with data or rejected. -/
inductive RejectReason where
  | timedOut
  | envelopeError (e : Msg)
deriving DecidableEq, Repr

/-- Resolution events emitted by registry operations. -/
inductive REvent where
  | resolved (reqTag : Nat) (data : Msg)
  | rejected (reqTag : Nat) (reason : RejectReason)
deriving DecidableEq, Repr

/-- AbstractShardedModule state (src/index.ts lines 170-289).  The three
container fields are `Option`s because the constructor never assigns
them; `gcTimer` records whether a GC timeout is scheduled; `nextTag` is
the object-identity allocator for key objects. -/
structure AbstractShardedModule where
  name : String
  REQUEST_EVENT_NAME : String
  RESPONSE_EVENT_NAME : String
  shardedMethods : Option (List (String × MethodImpl))
  pendingRequests : Option (List (IShardedRequestMeta × ShardedRequest))
  pendingRequestsKeyMap : Option (List (String × IShardedRequestMeta))
  gcTimer : Bool
  nextTag : Nat

/-- `scheduleGarbageCollection` (lines 366-392): clears any previously
scheduled timer and schedules a new one; state-wise, the timer ends up
set. -/
def AbstractShardedModule.scheduleGarbageCollection (m : AbstractShardedModule)
    (_gcTimeoutTime : Int) : AbstractShardedModule :=
  { m with gcTimer := true }

/-- The constructor (lines 278-289): sets the name and the two event
labels, schedules garbage collection, and assigns nothing else - the
`shardedMethods`, `pendingRequests` and `pendingRequestsKeyMap` fields
are left undefined. -/
def construct (name : String) (gcTimeoutTime : Int) : AbstractShardedModule :=
  AbstractShardedModule.scheduleGarbageCollection
    { name := name
      REQUEST_EVENT_NAME := "sharded." ++ name ++ ".request"
      RESPONSE_EVENT_NAME := "sharded." ++ name ++ ".response"
      shardedMethods := none
      pendingRequests := none
      pendingRequestsKeyMap := none
      gcTimer := false
      nextTag := 0 } gcTimeoutTime

/-- A module whose three container fields have been assigned (empty) by
code outside the constructor; every registry operation in src presumes
this has happened. -/
def readyModule (name : String) : AbstractShardedModule :=
  { construct name 5000 with
      shardedMethods := some []
      pendingRequests := some []
      pendingRequestsKeyMap := some [] }

/-- `addPendingRequest` (lines 481-492): the id is the constant string
"1"; the key (a fresh object) is written into the key map, a new
ShardedRequest is created and set in the pending map under the key. -/
def AbstractShardedModule.addPendingRequest (m : AbstractShardedModule) (now : Int)
    (target : List String) (method : String) (args : List Msg) :
    Except Msg (AbstractShardedModule × ShardedRequest) :=
  let id := "1"
  let timestamp := now
  let key : IShardedRequestMeta := ⟨m.nextTag, id, timestamp⟩
  match m.pendingRequestsKeyMap with
  | none => .error (.errVal "TypeError: Cannot set property of undefined")
  | some km =>
    let request : ShardedRequest := ⟨m.nextTag, m.REQUEST_EVENT_NAME, target, method, args⟩
    match m.pendingRequests with
    | none => .error (.errVal "TypeError: Cannot call set of undefined")
    | some pr =>
      .ok ({ m with
              pendingRequestsKeyMap := some (setStr km id key)
              pendingRequests := some (mapSet pr key request)
              nextTag := m.nextTag + 1 }, request)

/-- `getPendingRequest` (lines 502-516): key-map lookup by id, throwing
when absent, then Map lookup by the key object, throwing when absent. -/
def AbstractShardedModule.getPendingRequest (m : AbstractShardedModule) (id : String) :
    Except Msg ShardedRequest :=
  match m.pendingRequestsKeyMap with
  | none => .error (.errVal "TypeError: Cannot read property of undefined")
  | some km =>
    match lookupStr km id with
    | none => .error (.errVal ("Key not found in request key map (id: " ++ id ++ ")"))
    | some key =>
      match m.pendingRequests with
      | none => .error (.errVal "TypeError: Cannot call get of undefined")
      | some pr =>
        match mapGet pr key with
        | none => .error (.errVal ("Pending request not found (id: " ++ key.id ++
            ", timestamp: " ++ toString key.timestamp ++ ")"))
        | some request => .ok request

/-- `deletePendingRequest` (lines 528-537): key-map lookup by id, throwing
when absent, then removal from both containers.  (In source the key-map
deletion textually precedes the Map access; states where exactly one of
the two containers is assigned do not arise in the theorems below.) -/
def AbstractShardedModule.deletePendingRequest (m : AbstractShardedModule) (id : String) :
    Except Msg AbstractShardedModule :=
  match m.pendingRequestsKeyMap with
  | none => .error (.errVal "TypeError: Cannot read property of undefined")
  | some km =>
    match lookupStr km id with
    | none => .error (.errVal ("Key not found in request key map (id: " ++ id ++ ")"))
    | some key =>
      match m.pendingRequests with
      | none => .error (.errVal "TypeError: Cannot call delete of undefined")
      | some pr =>
        .ok { m with
                pendingRequestsKeyMap := some (removeStr km id)
                pendingRequests := some (mapDel pr key) }

/-- `getAndDeletePendingRequest` (lines 548-553). -/
def AbstractShardedModule.getAndDeletePendingRequest (m : AbstractShardedModule) (id : String) :
    Except Msg (AbstractShardedModule × ShardedRequest) :=
  match m.getPendingRequest id with
  | .error e => .error e
  | .ok request =>
    match m.deletePendingRequest id with
    | .error e => .error e
    | .ok m1 => .ok (m1, request)

/-- `onResponse` (lines 452-466): destructures `[requestId, error, data]`
from the messages (missing entries are undefined), stringifies the id,
fetch-and-deletes the pending request, then rejects it when `error` is
truthy and resolves it with `data` otherwise. -/
def AbstractShardedModule.onResponse (m : AbstractShardedModule) (messages : List Msg) :
    Except Msg (AbstractShardedModule × REvent) :=
  let requestId := messages.getD 0 .undef
  let error := messages.getD 1 .undef
  let data := messages.getD 2 .undef
  match msgToString requestId with
  | .error e => .error e
  | .ok rid =>
    match m.getAndDeletePendingRequest rid with
    | .error e => .error e
    | .ok (m1, request) =>
      if truthy error then .ok (m1, .rejected request.tag (.envelopeError error))
      else .ok (m1, .resolved request.tag data)

/-- One GC pass body (lines 371-391), iterating over the keys of the
pending-request Map as a live iterator: a key deleted before it is
reached is skipped.  A key whose timestamp is at least `now` minus the
GC window breaks the iteration; older keys get fetch-and-deleted by id
and rejected with the request-timed-out error. -/
def gcReap (m : AbstractShardedModule) (keys : List IShardedRequestMeta)
    (now gcTimeoutTime : Int) : Except Msg (AbstractShardedModule × List REvent) :=
  match keys with
  | [] => .ok (m, [])
  | key :: rest =>
    match m.pendingRequests with
    | none => .error (.errVal "TypeError: Cannot read property of undefined")
    | some pr =>
      if (mapGet pr key).isNone then gcReap m rest now gcTimeoutTime
      else if now - gcTimeoutTime ≤ key.timestamp then .ok (m, [])
      else
        match m.getAndDeletePendingRequest key.id with
        | .error e => .error e
        | .ok (m1, request) =>
          match gcReap m1 rest now gcTimeoutTime with
          | .error e => .error e
          | .ok (m2, events) => .ok (m2, .rejected request.tag .timedOut :: events)

/-- The scheduled GC callback (lines 371-391): reads
`this.pendingRequests.keys()` - a TypeError when the field was never
assigned - and runs the reaping pass over those keys. -/
def gcTick (m : AbstractShardedModule) (now gcTimeoutTime : Int) :
    Except Msg (AbstractShardedModule × List REvent) :=
  match m.pendingRequests with
  | none => .error (.errVal "TypeError: Cannot read property keys of undefined")
  | some pr => gcReap m (pr.map (fun p => p.1)) now gcTimeoutTime

/-- `onRequest` (lines 427-442): shifts the method name off the messages
(throwing when it is falsy - missing or empty), looks the method up in
`shardedMethods` (throwing when not registered), and applies it to the
remaining messages. -/
def onRequest (shardedMethods : Option (List (String × MethodImpl)))
    (messages : List Msg) : Except Msg Msg :=
  let methodNameBuffer := messages.getD 0 .undef
  if !(truthy methodNameBuffer) then .error (.errVal "Method name is missing")
  else
    match msgToString methodNameBuffer with
    | .error e => .error e
    | .ok methodName =>
      match shardedMethods with
      | none => .error (.errVal "TypeError: Cannot read property of undefined")
      | some methods =>
        match lookupStr methods methodName with
        | none => .error (.errVal ("Method is not locally available: " ++ methodName))
        | some method => method messages.tail

/-- The request-delivery handler registered in `setup` (lines 308-330):
shifts the request id off the inbound messages, runs `onRequest` on the
rest inside try and catch, and in the finally clause always sends exactly
one response envelope `[requestId, response, responseError]` back to the
inbound envelope's return route. -/
def handleDelivery (respEventName : String)
    (shardedMethods : Option (List (String × MethodImpl)))
    (requestEnvelope : Envelope) : Envelope :=
  let requestId := requestEnvelope.messages.getD 0 .undef
  let rest := requestEnvelope.messages.tail
  match onRequest shardedMethods rest with
  | .ok response => ⟨respEventName, [requestId, response, .undef], requestEnvelope.returnRoute, []⟩
  | .error e => ⟨respEventName, [requestId, .undef, e], requestEnvelope.returnRoute, []⟩

/-- The registration half of the Shard decorator (lines 147-156): throws
on an undefined method, otherwise stores the method body into the
target's `shardedMethods` table under the method name. -/
def shardRegister (targetShardedMethods : Option (List (String × MethodImpl)))
    (methodName : String) (method : Option MethodImpl) :
    Except Msg (List (String × MethodImpl)) :=
  match method with
  | none => .error (.errVal "Using the Shard decorator on an undefined method")
  | some f =>
    match targetShardedMethods with
    | none => .error (.errVal "TypeError: Cannot set property of undefined")
    | some sm => .ok (setStr sm methodName f)

/-- The replacement method body installed by the Shard decorator
(lines 158-166): computes the shard key from the arguments and then
returns without doing anything else - the function body past the key
computation is only comments. -/
def shardWrapper (shardFunction : List Msg → String) (args : List Msg) : Msg :=
  let _key := shardFunction args
  Msg.undef

/-- Modelled from the spec: the dispatch glue of section 4.3 step 3
(register a Pending Call, then send the request envelope) is absent from
src - the Shard decorator wrapper is stubbed - so this composes the
source's `addPendingRequest` and `ShardedRequest.sendOutcome` exactly as
that step prescribes, with the transport result a parameter. -/
def dispatchRemote (m : AbstractShardedModule) (now : Int) (target : List String)
    (method : String) (args : List Msg) (transportError : Option String) :
    Except Msg (AbstractShardedModule × ShardedRequest × SendOutcome) :=
  match m.addPendingRequest now target method args with
  | .error e => .error e
  | .ok (m1, request) => .ok (m1, request, request.sendOutcome transportError)

/-- Modelled from the spec: membership events delivered by the service
discovery feed to `onNodeAdded` and `onNodeRemoved`, whose bodies in src
are empty. -/
inductive MembershipEvent where
  | up (n : Nat)
  | down (n : Nat)
deriving DecidableEq, Repr

/-- Modelled from the spec: each node's view of the live membership set,
updated by up and down events (section 6: the feed emits up and down for
a named service). -/
def applyMembershipEvent (live : List Nat) : MembershipEvent → List Nat
  | .up n => if n ∈ live then live else live ++ [n]
  | .down n => live.filter (fun x => x != n)

/-- Modelled from the spec: the membership snapshot held by an observer
after a sequence of feed events, starting from the empty set. -/
def membershipAfter (events : List MembershipEvent) : List Nat :=
  events.foldl applyMembershipEvent []

/-- Modelled from the spec: the leader computation run by every node when
the debounce window closes (section 4.4) - the deterministic pure
function of the membership snapshot, picking the lowest id among live
nodes; src leaves `onNodeAdded` and `onNodeRemoved` unimplemented. -/
def electLeader : List Nat → Option Nat
  | [] => none
  | x :: xs => some (xs.foldl Nat.min x)

/-- Pending entry key allocated by the first registration in the traces
below (id is the hard-coded "1", timestamp 1000). -/
def c1key : IShardedRequestMeta := ⟨0, "1", 1000⟩

/-- The request object created by the first registration of the C1
trace. -/
def c1req : ShardedRequest := ⟨0, "sharded.M.request", ["nodeB"], "m", [Msg.str "x"]⟩

/-- Module state of the C1 trace after registering the pending call. -/
def c1st1 : AbstractShardedModule :=
  { readyModule "M" with
      pendingRequests := some [(c1key, c1req)]
      pendingRequestsKeyMap := some [("1", c1key)]
      nextTag := 1 }

/-- Claim C1: a call dispatched remotely and answered before the GC
window should resolve with exactly the remote value or error, with the
request envelope carrying the correlation id, and the Pending Call entry
removed exactly once.  The code diverges: the request envelope built by
ShardedRequest.send is `[method, ...args]` with no correlation id, so the
remote handler takes the method name for the request id and the first
argument for the method name, and the response comes back under a
correlation id that matches no pending entry - `onResponse` throws a
key-not-found error, the caller is never resolved, and the entry is never
removed. -/
theorem c1_remote_roundtrip_never_resolves :
    (readyModule "M").addPendingRequest 1000 ["nodeB"] "m" [Msg.str "x"] =
      .ok (c1st1, c1req) ∧
    c1req.requestEnvelope.messages = [Msg.str "m", Msg.str "x"] ∧
    handleDelivery "sharded.M.response"
        (some [("m", fun _ => Except.ok (Msg.str "v"))]) c1req.requestEnvelope =
      ⟨"sharded.M.response",
        [Msg.str "m", Msg.undef, Msg.errVal "Method is not locally available: x"], [], []⟩ ∧
    c1st1.onResponse
        [Msg.str "m", Msg.undef, Msg.errVal "Method is not locally available: x"] =
      .error (.errVal "Key not found in request key map (id: m)") ∧
    c1st1.pendingRequests = some [(c1key, c1req)] := by
  refine ⟨rfl, rfl, rfl, rfl, rfl⟩

/-- First pending key of the C2 trace. -/
def c2key1 : IShardedRequestMeta := ⟨0, "1", 0⟩

/-- First request of the C2 trace. -/
def c2r1 : ShardedRequest := ⟨0, "sharded.M.request", ["n"], "m", []⟩

/-- C2 trace state after the first registration. -/
def c2st1 : AbstractShardedModule :=
  { readyModule "M" with
      pendingRequests := some [(c2key1, c2r1)]
      pendingRequestsKeyMap := some [("1", c2key1)]
      nextTag := 1 }

/-- C2 trace state after the first response resolved and removed the
entry for correlation id "1". -/
def c2st2 : AbstractShardedModule :=
  { readyModule "M" with
      pendingRequests := some []
      pendingRequestsKeyMap := some []
      nextTag := 1 }

/-- Second pending key of the C2 trace: same id "1", fresh object. -/
def c2key2 : IShardedRequestMeta := ⟨1, "1", 50⟩

/-- Second request of the C2 trace. -/
def c2r2 : ShardedRequest := ⟨1, "sharded.M.request", ["n"], "m", []⟩

/-- C2 trace state after the second registration. -/
def c2st3 : AbstractShardedModule :=
  { readyModule "M" with
      pendingRequests := some [(c2key2, c2r2)]
      pendingRequestsKeyMap := some [("1", c2key2)]
      nextTag := 2 }

/-- C2 trace state after the second response. -/
def c2st4 : AbstractShardedModule :=
  { readyModule "M" with
      pendingRequests := some []
      pendingRequestsKeyMap := some []
      nextTag := 2 }

/-- Claim C2: once a correlation id has been resolved, no operation of
the module should ever resolve that correlation id again.  The code
diverges: `addPendingRequest` hard-codes the id "1", so after the first
response resolves correlation id "1", registering another call reuses the
same id and a later response envelope for "1" resolves again - the trace
below resolves correlation id "1" twice through ordinary module
operations. -/
theorem c2_correlation_id_resolved_twice :
    (readyModule "M").addPendingRequest 0 ["n"] "m" [] = .ok (c2st1, c2r1) ∧
    c2st1.onResponse [Msg.str "1", Msg.undef, Msg.str "v"] =
      .ok (c2st2, .resolved 0 (Msg.str "v")) ∧
    c2st2.addPendingRequest 50 ["n"] "m" [] = .ok (c2st3, c2r2) ∧
    c2st3.onResponse [Msg.str "1", Msg.undef, Msg.str "w"] =
      .ok (c2st4, .resolved 1 (Msg.str "w")) := by
  refine ⟨rfl, rfl, rfl, rfl⟩

/-- First pending key of the C3 trace. -/
def c3key1 : IShardedRequestMeta := ⟨0, "1", 0⟩

/-- First request of the C3 trace. -/
def c3r1 : ShardedRequest := ⟨0, "sharded.M.request", ["n"], "ma", []⟩

/-- C3 trace state after the first registration. -/
def c3st1 : AbstractShardedModule :=
  { readyModule "M" with
      pendingRequests := some [(c3key1, c3r1)]
      pendingRequestsKeyMap := some [("1", c3key1)]
      nextTag := 1 }

/-- Second pending key of the C3 trace: same id "1" again. -/
def c3key2 : IShardedRequestMeta := ⟨1, "1", 10⟩

/-- Second request of the C3 trace. -/
def c3r2 : ShardedRequest := ⟨1, "sharded.M.request", ["n"], "mb", []⟩

/-- C3 trace state after the second registration: the key map slot for
"1" now points at the second key, displacing the first. -/
def c3st2 : AbstractShardedModule :=
  { readyModule "M" with
      pendingRequests := some [(c3key1, c3r1), (c3key2, c3r2)]
      pendingRequestsKeyMap := some [("1", c3key2)]
      nextTag := 2 }

/-- Claim C3: every registration should allocate a fresh correlation id,
distinct for any two outstanding entries, and never displace an existing
entry.  The code diverges: `addPendingRequest` hard-codes id "1", so two
outstanding registrations share the same correlation id and the second
overwrites the key-map slot of the first, leaving the first entry
unreachable by id. -/
theorem c3_correlation_id_not_fresh :
    (readyModule "M").addPendingRequest 0 ["n"] "ma" [] = .ok (c3st1, c3r1) ∧
    c3st1.addPendingRequest 10 ["n"] "mb" [] = .ok (c3st2, c3r2) ∧
    c3key1.id = c3key2.id ∧
    c3st2.pendingRequests = some [(c3key1, c3r1), (c3key2, c3r2)] ∧
    c3st2.pendingRequestsKeyMap = some [("1", c3key2)] := by
  refine ⟨rfl, rfl, rfl, rfl, rfl⟩

/-- First pending key of the C5 trace (timestamp 0). -/
def c5key1 : IShardedRequestMeta := ⟨0, "1", 0⟩

/-- First (oldest) request of the C5 trace. -/
def c5r1 : ShardedRequest := ⟨0, "sharded.M.request", ["n"], "m", []⟩

/-- C5 trace state after the first registration. -/
def c5st1 : AbstractShardedModule :=
  { readyModule "M" with
      pendingRequests := some [(c5key1, c5r1)]
      pendingRequestsKeyMap := some [("1", c5key1)]
      nextTag := 1 }

/-- Second pending key of the C5 trace (timestamp 10). -/
def c5key2 : IShardedRequestMeta := ⟨1, "1", 10⟩

/-- Second (newest) request of the C5 trace. -/
def c5r2 : ShardedRequest := ⟨1, "sharded.M.request", ["n"], "m", []⟩

/-- C5 trace state with two pending entries, both older than the GC
window at the time the pass runs. -/
def c5st2 : AbstractShardedModule :=
  { readyModule "M" with
      pendingRequests := some [(c5key1, c5r1), (c5key2, c5r2)]
      pendingRequestsKeyMap := some [("1", c5key2)]
      nextTag := 2 }

/-- C5 trace state after the GC pass: the oldest entry is still
registered (with its key-map slot gone), the newest was rejected. -/
def c5st3 : AbstractShardedModule :=
  { readyModule "M" with
      pendingRequests := some [(c5key1, c5r1)]
      pendingRequestsKeyMap := some []
      nextTag := 2 }

/-- Claim C5: a GC pass should fail exactly the entries older than the
window, oldest first, leaving fresher entries registered.  The code
diverges: the pass visits keys oldest first but fetches each victim
through the key map by id, and since every id is the hard-coded "1" the
slot points at the newest entry - with two entries both older than the
window (timestamps 0 and 10, window boundary 80), the pass rejects the
newest request (tag 1) and leaves the oldest registered and unresolved
forever. -/
theorem c5_gc_reaps_wrong_entry :
    (readyModule "M").addPendingRequest 0 ["n"] "m" [] = .ok (c5st1, c5r1) ∧
    c5st1.addPendingRequest 10 ["n"] "m" [] = .ok (c5st2, c5r2) ∧
    c5key1.timestamp < 100 - 20 ∧
    c5key2.timestamp < 100 - 20 ∧
    gcTick c5st2 100 20 = .ok (c5st3, [.rejected c5r2.tag .timedOut]) ∧
    c5st3.pendingRequests = some [(c5key1, c5r1)] ∧
    c5st3.pendingRequestsKeyMap = some [] := by
  refine ⟨rfl, rfl, by decide, by decide, rfl, rfl, rfl⟩

/-- Claim C4 counterexample: the claim says processing a response whose
correlation id has no matching Pending Call entry raises no error; on a
module with an empty registry, a response for id "5" makes `onResponse`
throw the key-not-found error. -/
theorem c4_unmatched_response_raises :
    (readyModule "M").onResponse [Msg.str "5", Msg.undef, Msg.undef] =
      .error (.errVal "Key not found in request key map (id: 5)") := rfl

/-- Claim C4 as amended: processing a response envelope whose correlation
id has no matching Pending Call entry throws a key-not-found error
(late and duplicate responses are not silently dropped), while the
registry itself is left unchanged - the throw happens before any
mutation. -/
theorem c4_unmatched_response_throws (m : AbstractShardedModule)
    (km : List (String × IShardedRequestMeta)) (rid : String) (e d : Msg)
    (h1 : m.pendingRequestsKeyMap = some km) (h2 : lookupStr km rid = none) :
    m.onResponse [Msg.str rid, e, d] =
      .error (.errVal ("Key not found in request key map (id: " ++ rid ++ ")")) := by
  simp [AbstractShardedModule.onResponse, AbstractShardedModule.getAndDeletePendingRequest,
    AbstractShardedModule.getPendingRequest, msgToString, h1, h2]

/-- Witness for the amended C4 theorem at a concrete input. -/
theorem c4_unmatched_response_throws_witness :
    (readyModule "M").onResponse [Msg.str "9", Msg.undef, Msg.undef] =
      .error (.errVal ("Key not found in request key map (id: " ++ "9" ++ ")")) :=
  c4_unmatched_response_throws (readyModule "M") [] "9" Msg.undef Msg.undef rfl rfl

/-- Appending a fresh binding to the object-keyed map makes it
retrievable when no existing key matches. -/
theorem mapGet_append_fresh {α : Type} (m : List (IShardedRequestMeta × α))
    (k : IShardedRequestMeta) (v : α)
    (h : m.any (fun p => p.1.tag == k.tag) = false) :
    mapGet (m ++ [(k, v)]) k = some v := by
  induction m with
  | nil =>
    unfold mapGet
    simp only [List.nil_append, List.find?, beq_self_eq_true]
    rfl
  | cons p t ih =>
    rw [List.any_cons, Bool.or_eq_false_iff] at h
    unfold mapGet
    rw [List.cons_append]
    simp only [List.find?, h.1]
    exact ih h.2

/-- Replacing the binding of a present key in the object-keyed map makes
the new value retrievable. -/
theorem mapGet_map_replace {α : Type} (m : List (IShardedRequestMeta × α))
    (k : IShardedRequestMeta) (v : α)
    (h : m.any (fun p => p.1.tag == k.tag) = true) :
    mapGet (m.map (fun p => if p.1.tag == k.tag then (k, v) else p)) k = some v := by
  induction m with
  | nil => simp at h
  | cons p t ih =>
    rw [List.any_cons, Bool.or_eq_true] at h
    by_cases hp : (p.1.tag == k.tag) = true
    · unfold mapGet
      rw [List.map_cons, if_pos hp]
      simp only [List.find?, beq_self_eq_true]
      rfl
    · have hpf : (p.1.tag == k.tag) = false := Bool.eq_false_iff.mpr hp
      have ht : t.any (fun q => q.1.tag == k.tag) = true := by
        rcases h with h1 | h2
        · exact absurd h1 hp
        · exact h2
      unfold mapGet
      rw [List.map_cons, if_neg hp]
      simp only [List.find?, hpf]
      exact ih ht

/-- Setting an entry in the object-keyed map makes it retrievable under
its key. -/
theorem mapGet_mapSet {α : Type} (m : List (IShardedRequestMeta × α))
    (k : IShardedRequestMeta) (v : α) : mapGet (mapSet m k v) k = some v := by
  unfold mapSet
  by_cases h : m.any (fun p => p.1.tag == k.tag) = true
  · rw [if_pos h]
    exact mapGet_map_replace m k v h
  · rw [if_neg h]
    exact mapGet_append_fresh m k v (Bool.eq_false_iff.mpr h)

/-- Pending key registered by the failing C6 dispatch. -/
def c6key : IShardedRequestMeta := ⟨0, "1", 0⟩

/-- Request registered by the failing C6 dispatch. -/
def c6req : ShardedRequest := ⟨0, "sharded.M.request", ["n"], "m", []⟩

/-- C6 trace state after the dispatch whose transport send was rejected:
the pending entry is still registered. -/
def c6st1 : AbstractShardedModule :=
  { readyModule "M" with
      pendingRequests := some [(c6key, c6req)]
      pendingRequestsKeyMap := some [("1", c6key)]
      nextTag := 1 }

/-- Claim C6 counterexample: the claim says that after a transport-
rejected dispatch the call fails with DispatchFailed and no Pending Call
entry remains (the registry is exactly as before the dispatch).
Dispatching from a module with an empty registry while the transport
rejects the send leaves the freshly registered entry in the registry,
and the call is rejected with the raw transport error. -/
theorem c6_failed_send_leaves_entry :
    dispatchRemote (readyModule "M") 0 ["n"] "m" [] (some "ECONNREFUSED") =
      .ok (c6st1, c6req, .rejectedWith (.errVal "ECONNREFUSED")) ∧
    (readyModule "M").pendingRequests = some [] ∧
    c6st1.pendingRequests = some [(c6key, c6req)] := by
  refine ⟨rfl, rfl, rfl⟩

/-- Claim C6 as amended: when the transport rejects the send, the call
fails immediately with the transport's own error (there is no
DispatchFailed wrapper in the code), and the Pending Call entry
registered by the dispatch remains in the registry, retrievable under
its key, until garbage collection later reaps it. -/
theorem c6_failed_send_keeps_registration (m : AbstractShardedModule) (now : Int)
    (target : List String) (method : String) (args : List Msg) (e : String)
    (km : List (String × IShardedRequestMeta))
    (pr : List (IShardedRequestMeta × ShardedRequest))
    (h1 : m.pendingRequestsKeyMap = some km) (h2 : m.pendingRequests = some pr) :
    dispatchRemote m now target method args (some e) =
      .ok ({ m with
              pendingRequestsKeyMap := some (setStr km "1" ⟨m.nextTag, "1", now⟩)
              pendingRequests := some (mapSet pr ⟨m.nextTag, "1", now⟩
                ⟨m.nextTag, m.REQUEST_EVENT_NAME, target, method, args⟩)
              nextTag := m.nextTag + 1 },
        ⟨m.nextTag, m.REQUEST_EVENT_NAME, target, method, args⟩,
        .rejectedWith (.errVal e)) ∧
    mapGet (mapSet pr ⟨m.nextTag, "1", now⟩
        ⟨m.nextTag, m.REQUEST_EVENT_NAME, target, method, args⟩) ⟨m.nextTag, "1", now⟩ =
      some ⟨m.nextTag, m.REQUEST_EVENT_NAME, target, method, args⟩ := by
  constructor
  · simp [dispatchRemote, AbstractShardedModule.addPendingRequest,
      ShardedRequest.sendOutcome, h1, h2]
  · exact mapGet_mapSet pr _ _

/-- Witness for the amended C6 theorem at a concrete input. -/
theorem c6_failed_send_keeps_registration_witness :
    dispatchRemote (readyModule "M") 0 ["n"] "m" [] (some "ECONNREFUSED") =
      .ok ({ readyModule "M" with
              pendingRequestsKeyMap :=
                some (setStr ([] : List (String × IShardedRequestMeta)) "1" ⟨0, "1", 0⟩)
              pendingRequests :=
                some (mapSet ([] : List (IShardedRequestMeta × ShardedRequest)) ⟨0, "1", 0⟩
                  ⟨0, "sharded.M.request", ["n"], "m", []⟩)
              nextTag := 1 },
        ⟨0, "sharded.M.request", ["n"], "m", []⟩,
        .rejectedWith (.errVal "ECONNREFUSED")) ∧
    mapGet (mapSet ([] : List (IShardedRequestMeta × ShardedRequest)) ⟨0, "1", 0⟩
        ⟨0, "sharded.M.request", ["n"], "m", []⟩) ⟨0, "1", 0⟩ =
      some ⟨0, "sharded.M.request", ["n"], "m", []⟩ :=
  c6_failed_send_keeps_registration (readyModule "M") 0 ["n"] "m" [] "ECONNREFUSED"
    [] [] rfl rfl

/-- Claim C7: an invocation whose shard key resolves to the local node
should execute the registered method body directly and return its
result, touching neither transport nor registry.  The code diverges:
although the decorator does store the body in the sharded-methods table,
the replacement wrapper it installs - the function the caller actually
invokes - computes the shard key and then returns undefined without
calling the body (or anything else): the registered body is never
executed and no result is ever returned, for any shard function and any
arguments. -/
theorem c7_local_invocation_stubbed (shardFunction : List Msg → String)
    (args : List Msg) (body : MethodImpl) :
    shardRegister (some []) "m" (some body) = .ok [("m", body)] ∧
    shardWrapper shardFunction args = Msg.undef := by
  exact ⟨rfl, rfl⟩

/-- Claim C8 (the leader-election computation modelled from the spec,
src leaving the membership handlers empty): after the membership
sequence up(A), up(B), up(C), down(B), the debounced computation elects
exactly one leader - the minimum of the live set under the total order
on node ids - and every observer holding that snapshot computes the same
one. -/
theorem c8_single_leader_elected (a b c : Nat)
    (hab : a ≠ b) (hac : a ≠ c) (hbc : b ≠ c) :
    electLeader (membershipAfter
        [MembershipEvent.up a, .up b, .up c, .down b]) = some (Nat.min a c) ∧
    ∃! l, electLeader (membershipAfter
        [MembershipEvent.up a, .up b, .up c, .down b]) = some l := by
  have hba : b ≠ a := hab.symm
  have hca : c ≠ a := hac.symm
  have hcb : c ≠ b := hbc.symm
  have hmem : membershipAfter [MembershipEvent.up a, .up b, .up c, .down b] = [a, c] := by
    simp [membershipAfter, applyMembershipEvent, List.foldl, hba, hab, hac, hbc, hca, hcb]
  constructor
  · rw [hmem]
    rfl
  · refine ⟨Nat.min a c, by rw [hmem]; rfl, ?_⟩
    intro y hy
    rw [hmem] at hy
    exact (Option.some.inj hy).symm

/-- Witness for the C8 theorem at the concrete membership A=0, B=1,
C=2. -/
theorem c8_single_leader_elected_witness :
    electLeader (membershipAfter
        [MembershipEvent.up 0, .up 1, .up 2, .down 1]) = some 0 ∧
    ∃! l, electLeader (membershipAfter
        [MembershipEvent.up 0, .up 1, .up 2, .down 1]) = some l :=
  c8_single_leader_elected 0 1 2 (by decide) (by decide) (by decide)

/-- Claim C9: for every inbound request envelope, the delivery handler
sends exactly one response envelope back to the envelope's return route,
both when the method executes successfully and when request processing
throws (missing method name, method not registered, body raising) - the
failure travels inside the response messages instead of the request
being dropped.  `handleDelivery` is the handler's finally clause: it
returns the single response envelope sent, whose route is the inbound
return route and whose messages carry the result or the error. -/
theorem c9_every_request_answered (evt : String)
    (sm : Option (List (String × MethodImpl))) (env : Envelope) :
    (handleDelivery evt sm env).eventName = evt ∧
    (handleDelivery evt sm env).route = env.returnRoute ∧
    (handleDelivery evt sm env).messages =
      (match onRequest sm env.messages.tail with
       | .ok v => [env.messages.getD 0 .undef, v, .undef]
       | .error e => [env.messages.getD 0 .undef, .undef, e]) := by
  unfold handleDelivery
  cases h : onRequest sm env.messages.tail <;> simp [h]

/-- Claim C10: the public constructor never assigns the pendingRequests
map, the pendingRequestsKeyMap, or the shardedMethods table, yet it
immediately schedules garbage collection; on a freshly constructed
module the first GC tick's read of this.pendingRequests.keys() throws a
TypeError, and so does any attempt to register a pending request. -/
theorem c10_constructor_leaves_fields_undefined (name : String)
    (gcTimeoutTime now : Int) (target : List String) (method : String)
    (args : List Msg) :
    (construct name gcTimeoutTime).pendingRequests = none ∧
    (construct name gcTimeoutTime).pendingRequestsKeyMap = none ∧
    (construct name gcTimeoutTime).shardedMethods = none ∧
    (construct name gcTimeoutTime).gcTimer = true ∧
    gcTick (construct name gcTimeoutTime) now gcTimeoutTime =
      .error (.errVal "TypeError: Cannot read property keys of undefined") ∧
    (construct name gcTimeoutTime).addPendingRequest now target method args =
      .error (.errVal "TypeError: Cannot set property of undefined") := by
  refine ⟨rfl, rfl, rfl, rfl, rfl, rfl⟩
